import Mathlib

/-!
# Verification of the `precise-time-ntp` synchronization core

Shallow embedding of the `TimeSync` class from `src/index.js` (the current
version of the file, with coherence validation and the correction timeout).

Modelling conventions:
* JavaScript numbers (millisecond offsets and timestamps) are modelled as `ℚ`;
  the algebra of the correction loop (comparisons, linear updates, `* 0.1`)
  is exact over `ℚ`.  IEEE-754 rounding is not modelled.
* `performance.now()` / `Date.now()` readings are passed explicitly as
  parameters (`tPerf`, `tWall`).
* A network query of one NTP server is an environment function
  `query : String → Option ℚ` giving the measured offset for a server, or
  `none` when the query fails (timeout / network error).
* `throw` sites become `Except` errors; event emissions that the claims
  observe (`coherenceWarning`, `correctionComplete`) become returned values.
* The asynchronous self-rescheduling of `applyGradualCorrection` via
  `setTimeout` is modelled by making one invocation of the function a single
  step (`applyGradualCorrection`), returning the state after that tick and
  what the tick did (including the delay it would schedule the next tick at).
-/

namespace PreciseTimeNtp

/-- The configuration fields of `this.config` in the `TimeSync` constructor
that the synchronization core reads (WebSocket/auto-sync scheduling fields are
outside the model). -/
structure SyncConfig where
  servers : List String
  timeout : ℚ
  smoothCorrection : Bool
  maxCorrectionJump : ℚ
  correctionRate : ℚ
  maxOffsetThreshold : ℚ
  coherenceValidation : Bool
  deriving Repr, DecidableEq

/-- The default configuration from the `TimeSync` constructor. -/
def defaultConfig : SyncConfig :=
  { servers := ["pool.ntp.org", "time.google.com", "time.cloudflare.com"]
    timeout := 5000
    smoothCorrection := true
    maxCorrectionJump := 1000
    correctionRate := 1/10
    maxOffsetThreshold := 5000
    coherenceValidation := true }

/-- The mutable synchronization state of a `TimeSync` instance: the fields
set in the constructor and mutated by `sync`, `applyGradualCorrection` and
`forceCorrection`. -/
structure TimeSyncState where
  isSync : Bool
  lastSyncTime : Option ℚ
  systemOffset : ℚ
  syncDate : Option ℚ
  targetOffset : ℚ
  currentOffset : ℚ
  correctionInProgress : Bool
  correctionStartTime : Option ℚ
  deriving Repr, DecidableEq

/-- The state established by the `TimeSync` constructor. -/
def initState : TimeSyncState :=
  { isSync := false
    lastSyncTime := none
    systemOffset := 0
    syncDate := none
    targetOffset := 0
    currentOffset := 0
    correctionInProgress := false
    correctionStartTime := none }

/-- One successful server query inside `sync` (`serverResults` entries;
the `ntpTime`/`systemTime` fields are subsumed by `offset`, the only field
the selection logic reads). -/
structure ServerResult where
  server : String
  offset : ℚ
  deriving Repr, DecidableEq

/-- Payload of the `coherenceWarning` event emitted by `sync`. -/
structure CoherenceWarning where
  variance : ℚ
  servers : List ServerResult
  deriving Repr, DecidableEq

/-- `Math.max(...offsets)` on the (always nonempty at call sites) offset
list. -/
def mathMax : List ℚ → ℚ
  | [] => 0
  | x :: xs => xs.foldl max x

/-- `Math.min(...offsets)`. -/
def mathMin : List ℚ → ℚ
  | [] => 0
  | x :: xs => xs.foldl min x

/-- The offsets of a list of server results (`serverResults.map(r => r.offset)`). -/
def offsetsOf (rs : List ServerResult) : List ℚ := rs.map (·.offset)

/-- `variance = Math.max(...offsets) - Math.min(...offsets)` in `sync`. -/
def varianceOf (rs : List ServerResult) : ℚ :=
  mathMax (offsetsOf rs) - mathMin (offsetsOf rs)

/-- `offsets.sort((a, b) => a - b); offsets[Math.floor(offsets.length / 2)]`:
the median offset the coherence-validation path selects. -/
def medianOffset (rs : List ServerResult) : ℚ :=
  let sorted := (offsetsOf rs).insertionSort (· ≤ ·)
  sorted.getD ((offsetsOf rs).length / 2) 0

/-- The coherence-validation and selection block of `sync`
(`let selectedResult = serverResults[0]; if (serverResults.length > 1) ...`).
Returns `none` when there are no results (in the source this point is
unreachable because `sync` has already thrown), otherwise the selected result
together with the `coherenceWarning` payload when one is emitted. -/
def selectResult (rs : List ServerResult) :
    Option (ServerResult × Option CoherenceWarning) :=
  match rs with
  | [] => none
  | r0 :: rest =>
    if rest.isEmpty then some (r0, none)
    else if varianceOf (r0 :: rest) > 100 then
      let m := medianOffset (r0 :: rest)
      some (((r0 :: rest).find? (fun r => decide (r.offset = m))).getD r0,
            some ⟨varianceOf (r0 :: rest), r0 :: rest⟩)
    else
      some (r0, none)

/-- `serversToTest` in `sync`: with coherence validation, at most the first
three configured servers (`config.servers.slice(0, Math.min(3, length))`). -/
def serversToTest (cfg : SyncConfig) : List String :=
  if cfg.coherenceValidation then cfg.servers.take 3 else cfg.servers

/-- The query loop of `sync`: each server is queried; failures are skipped
(`catch ... continue`) and successes are collected into `serverResults`. -/
def collectResults (servers : List String) (query : String → Option ℚ) :
    List ServerResult :=
  servers.filterMap (fun s => (query s).map (fun o => ⟨s, o⟩))

/-- The smooth-correction decision block of `sync` (the
`if (isFirstSync || !config.smoothCorrection || ...)` statement), without the
synchronous first call to `applyGradualCorrection` made in the smooth branch
(modelled as a separate tick step). -/
def syncCorrectionUpdate (st : TimeSyncState) (cfg : SyncConfig)
    (newOffset : ℚ) : TimeSyncState :=
  let offsetDiff := |newOffset - st.currentOffset|
  if st.isSync = false ∨ cfg.smoothCorrection = false ∨
      offsetDiff ≤ cfg.maxCorrectionJump ∨ offsetDiff ≥ cfg.maxOffsetThreshold then
    { st with systemOffset := newOffset, currentOffset := newOffset,
              targetOffset := newOffset, correctionInProgress := false,
              correctionStartTime := none }
  else
    { st with targetOffset := newOffset, systemOffset := newOffset,
              correctionInProgress := true, correctionStartTime := none }

/-- What one invocation of `applyGradualCorrection` did. `stepped i` records
the adaptive delay `i` at which the next tick is scheduled via `setTimeout`. -/
inductive TickOutcome where
  | notInProgress
  | converged
  | timedOut
  | stepped (nextInterval : ℚ)
  deriving Repr, DecidableEq

/-- `Math.max(50, Math.min(200, Math.abs(diff) * 0.1))` in
`applyGradualCorrection`. -/
def adaptiveInterval (diff : ℚ) : ℚ := max 50 (min 200 (|diff| * (1/10)))

/-- One invocation of `applyGradualCorrection(rate)` at monotonic time `t`
(the value `performance.now()` would return during this tick). -/
def applyGradualCorrection (st : TimeSyncState) (rate : ℚ) (t : ℚ) :
    TimeSyncState × TickOutcome :=
  if st.correctionInProgress = false then (st, .notInProgress)
  else
    let diff := st.targetOffset - st.currentOffset
    if |diff| < 1/2 then
      ({ st with currentOffset := st.targetOffset,
                 correctionInProgress := false }, .converged)
    else
      let startTime := st.correctionStartTime.getD t
      if t - startTime > 30000 then
        ({ st with currentOffset := st.targetOffset,
                   correctionInProgress := false,
                   correctionStartTime := none }, .timedOut)
      else
        ({ st with currentOffset := st.currentOffset + diff * rate,
                   correctionStartTime := some startTime },
         .stepped (adaptiveInterval diff))

/-- The single `throw` site of `sync`
(`throw new Error('Unable to synchronize with any NTP server')`). -/
inductive SyncError where
  | allSourcesUnreachable
  deriving Repr, DecidableEq

/-- The fields of the result object of `sync` that the model observes, plus
the `coherenceWarning` emission. -/
structure SyncEvent where
  server : String
  offset : ℚ
  correctedOffset : ℚ
  gradualCorrection : Bool
  coherenceVariance : ℚ
  warning : Option CoherenceWarning
  deriving Repr, DecidableEq

/-- `TimeSync.sync(options)`: query the servers, select an offset with
coherence validation, run the correction decision (and, in the smooth branch,
the synchronous first correction tick), then stamp the anchor
(`isSync`, `lastSyncTime`, `syncDate`).  On total failure the state is
returned unchanged alongside the error. -/
def sync (st : TimeSyncState) (cfg : SyncConfig) (query : String → Option ℚ)
    (tPerf tWall : ℚ) : TimeSyncState × Except SyncError SyncEvent :=
  let results := collectResults (serversToTest cfg) query
  match selectResult results with
  | none => (st, .error .allSourcesUnreachable)
  | some (sel, warn) =>
    let st1 := syncCorrectionUpdate st cfg sel.offset
    let st2 := if st1.correctionInProgress then
        (applyGradualCorrection st1 cfg.correctionRate tPerf).1
      else st1
    let st3 := { st2 with isSync := true, lastSyncTime := some tPerf,
                          syncDate := some tWall }
    (st3, .ok { server := sel.server
                offset := st3.systemOffset
                correctedOffset := st3.currentOffset
                gradualCorrection := st3.correctionInProgress
                coherenceVariance :=
                  if 1 < results.length then varianceOf results else 0
                warning := warn })

/-- The `throw` site of `now` (`'Clock not synchronized. Call sync() first.'`). -/
inductive ClockError where
  | notSynchronized
  deriving Repr, DecidableEq

/-- Result of `now`: the computed instant, and whether the `driftWarning`
event fired on this read (`elapsed > 3600000`). -/
structure NowResult where
  time : ℚ
  driftWarning : Bool
  deriving Repr, DecidableEq

/-- `TimeSync.now()` read at monotonic time `tPerf`. -/
def now (st : TimeSyncState) (tPerf : ℚ) : Except ClockError NowResult :=
  if st.isSync = false then .error .notSynchronized
  else
    let elapsed := tPerf - st.lastSyncTime.getD 0
    let activeOffset :=
      if st.correctionInProgress then st.currentOffset else st.systemOffset
    .ok ⟨st.syncDate.getD 0 + elapsed + activeOffset, decide (elapsed > 3600000)⟩

/-- Stand-in for `Date#toISOString` (a total formatting function; no claim
depends on the concrete string). -/
def toISOStringModel (t : ℚ) : String := toString t

/-- `TimeSync.timestamp()`: `this.now().toISOString()` — propagates `now`'s
error unchanged. -/
def timestamp (st : TimeSyncState) (tPerf : ℚ) : Except ClockError String :=
  (now st tPerf).map (fun r => toISOStringModel r.time)

/-- Payload of the `correctionComplete` event emitted by `forceCorrection`. -/
structure CorrectionEvent where
  finalOffset : ℚ
  forced : Bool
  deriving Repr, DecidableEq

/-- `TimeSync.forceCorrection()`. -/
def forceCorrection (st : TimeSyncState) : TimeSyncState × Option CorrectionEvent :=
  if st.correctionInProgress then
    ({ st with currentOffset := st.targetOffset, correctionInProgress := false },
     some ⟨st.targetOffset, true⟩)
  else (st, none)

/-- One state-mutating operation of the class: a `sync` call (with any
configuration, environment and times), one gradual-correction tick, or a
`forceCorrection` call.  These are the only methods that write the
synchronization state. -/
inductive Step : TimeSyncState → TimeSyncState → Prop where
  | syncStep (st : TimeSyncState) (cfg : SyncConfig) (query : String → Option ℚ)
      (tPerf tWall : ℚ) : Step st (sync st cfg query tPerf tWall).1
  | tickStep (st : TimeSyncState) (rate t : ℚ) :
      Step st (applyGradualCorrection st rate t).1
  | forceStep (st : TimeSyncState) : Step st (forceCorrection st).1

/-- States reachable from the constructor state by the class's operations. -/
inductive Reachable : TimeSyncState → Prop where
  | init : Reachable initState
  | step {st st' : TimeSyncState} : Reachable st → Step st st' → Reachable st'

/-- A synchronized, settled state whose applied, target and real offsets all
equal `o`: the state right after a brutal correction to offset `o` (anchor
times normalized to 0). -/
def settledState (o : ℚ) : TimeSyncState :=
  { isSync := true, lastSyncTime := some 0, systemOffset := o, syncDate := some 0,
    targetOffset := o, currentOffset := o, correctionInProgress := false,
    correctionStartTime := none }

/-- A synchronized state in the middle of a gradual correction: applied
offset `cur` still moving toward the measured target `tgt`, with the
correction timeout clock in state `start`. -/
def convergingState (cur tgt : ℚ) (start : Option ℚ) : TimeSyncState :=
  { isSync := true, lastSyncTime := some 0, systemOffset := tgt, syncDate := some 0,
    targetOffset := tgt, currentOffset := cur, correctionInProgress := true,
    correctionStartTime := start }

/-- A single-server configuration (otherwise the defaults). -/
def oneServerConfig : SyncConfig := { defaultConfig with servers := ["a"] }

/-- A configuration that the specification calls contradictory: the
force-instant threshold (500) does not exceed the max instant jump (1000),
and the correction rate is non-positive. -/
def contradictoryConfig : SyncConfig :=
  { defaultConfig with servers := ["a"], maxOffsetThreshold := 500,
                       correctionRate := -1 }

/-- The three-server environment of the coherence test vector: measured
offsets 40, 45 and 9000 for the three default servers. -/
def coherenceQuery : String → Option ℚ := fun s =>
  if s = "pool.ntp.org" then some 40
  else if s = "time.google.com" then some 45
  else some 9000

/-! ## Helper lemmas -/

/-- If every server's query fails, the query loop collects no results. -/
theorem collectResults_eq_nil {servers : List String} {query : String → Option ℚ}
    (h : ∀ s ∈ servers, query s = none) : collectResults servers query = [] := by
  simp only [collectResults, List.filterMap_eq_nil_iff]
  intro s hs
  simp [h s hs]

/-! ## Claim theorems -/

/-- C1: instant-jump boundary of the correction decision in `sync`.  From a
synchronized state with applied offset 0, under `maxCorrectionJump = 1000`
and `maxOffsetThreshold = 5000` with smooth correction enabled (and not the
first synchronization): a measured offset of 900 jumps instantly (applied,
target and real offset all 900, no correction in progress); 2500 starts
smooth convergence (correction in progress, applied unchanged at 0 until a
correction tick runs — the first tick then moves it to 250); 6000 jumps
instantly to 6000. -/
theorem instant_jump_boundary :
    syncCorrectionUpdate (settledState 0) defaultConfig 900 = settledState 900 ∧
    ((syncCorrectionUpdate (settledState 0) defaultConfig 2500).correctionInProgress = true ∧
      (syncCorrectionUpdate (settledState 0) defaultConfig 2500).currentOffset = 0 ∧
      (syncCorrectionUpdate (settledState 0) defaultConfig 2500).targetOffset = 2500 ∧
      (syncCorrectionUpdate (settledState 0) defaultConfig 2500).systemOffset = 2500 ∧
      (applyGradualCorrection (syncCorrectionUpdate (settledState 0) defaultConfig 2500)
          defaultConfig.correctionRate 0).1.currentOffset = 250) ∧
    syncCorrectionUpdate (settledState 0) defaultConfig 6000 = settledState 6000 := by
  refine ⟨?_, ⟨?_, ?_, ?_, ?_, ?_⟩, ?_⟩ <;>
    simp [syncCorrectionUpdate, applyGradualCorrection, defaultConfig, settledState,
      abs_eq_max_neg, max_def, min_def] <;> norm_num

/-- C3: if every attempted source query fails, `sync` rejects with the
all-sources-unreachable error and returns the synchronization state exactly
as it was before the call (no field changes — the last good sync stays
authoritative). -/
theorem all_sources_failure_atomic (st : TimeSyncState) (cfg : SyncConfig)
    (query : String → Option ℚ) (tPerf tWall : ℚ)
    (h : ∀ s ∈ serversToTest cfg, query s = none) :
    sync st cfg query tPerf tWall = (st, .error .allSourcesUnreachable) := by
  simp [sync, collectResults_eq_nil h, selectResult]

/-- Witness for C3 at a concrete input: the default configuration with all
three queries failing. -/
theorem all_sources_failure_atomic_witness :
    sync (settledState 42) defaultConfig (fun _ => none) 7 7 =
      (settledState 42, .error .allSourcesUnreachable) :=
  all_sources_failure_atomic (settledState 42) defaultConfig (fun _ => none) 7 7
    (fun _ _ => rfl)

/-- The median offset selected by the coherence path is one of the measured
offsets. -/
theorem medianOffset_mem {rs : List ServerResult} (h : rs ≠ []) :
    medianOffset rs ∈ offsetsOf rs := by
  have hlen : 0 < (offsetsOf rs).length := by
    cases rs with
    | nil => exact absurd rfl h
    | cons a l => simp [offsetsOf]
  have hlt : (offsetsOf rs).length / 2 <
      (List.insertionSort (· ≤ ·) (offsetsOf rs)).length := by
    rw [(List.perm_insertionSort _ _).length_eq]
    exact Nat.div_lt_self hlen (by norm_num)
  simp only [medianOffset]
  rw [List.getD_eq_getElem _ _ hlt]
  exact (List.perm_insertionSort _ _).mem_iff.mp (List.getElem_mem hlt)

/-- On at least two results with variance above 100, `selectResult` emits the
coherence warning (variance plus per-source offsets) and selects a result
whose offset is the sorted-median offset. -/
theorem selectResult_median (r0 : ServerResult) (rest : List ServerResult)
    (hne : rest ≠ []) (hv : 100 < varianceOf (r0 :: rest)) :
    ∃ sel, selectResult (r0 :: rest) =
        some (sel, some ⟨varianceOf (r0 :: rest), r0 :: rest⟩) ∧
      sel.offset = medianOffset (r0 :: rest) := by
  have hmem : medianOffset (r0 :: rest) ∈ offsetsOf (r0 :: rest) :=
    medianOffset_mem (by simp)
  rw [offsetsOf, List.mem_map] at hmem
  obtain ⟨r, hr, hro⟩ := hmem
  have hfind : ((r0 :: rest).find?
      (fun x => decide (x.offset = medianOffset (r0 :: rest)))).isSome := by
    rw [List.find?_isSome]
    exact ⟨r, hr, by simp [hro]⟩
  obtain ⟨sel, hsel⟩ := Option.isSome_iff_exists.mp hfind
  have hoff : sel.offset = medianOffset (r0 :: rest) := by
    have := List.find?_some hsel
    simpa using this
  cases rest with
  | nil => exact absurd rfl hne
  | cons b bs =>
    refine ⟨sel, ?_, hoff⟩
    simp [selectResult, hv, hsel]

/-- With variance at most 100 (or a single result), `selectResult` keeps the
first successful result and emits no warning. -/
theorem selectResult_lowVariance (r0 : ServerResult) (rest : List ServerResult)
    (hv : varianceOf (r0 :: rest) ≤ 100) :
    selectResult (r0 :: rest) = some (r0, none) := by
  cases rest with
  | nil => simp [selectResult]
  | cons b bs => simp [selectResult, not_lt.mpr hv]

/-- C2: coherence median selection.  For at least two successful samples with
offset spread above 100ms, `selectResult` emits a coherence warning carrying
the variance and the per-source offsets and selects the median offset (the
element at index `⌊n/2⌋` of the offsets sorted ascending); with variance at
most 100 the first successful sample is selected.  On the test vector
(offsets 40, 45, 9000 from the three default servers) the full `sync` call
selects 45 and warns with variance 8960. -/
theorem coherence_median_selection :
    (∀ (r0 : ServerResult) (rest : List ServerResult), rest ≠ [] →
       100 < varianceOf (r0 :: rest) →
       ∃ sel, selectResult (r0 :: rest) =
           some (sel, some ⟨varianceOf (r0 :: rest), r0 :: rest⟩) ∧
         sel.offset = medianOffset (r0 :: rest)) ∧
    (∀ (r0 : ServerResult) (rest : List ServerResult),
       varianceOf (r0 :: rest) ≤ 100 →
       selectResult (r0 :: rest) = some (r0, none)) ∧
    (sync initState defaultConfig coherenceQuery 0 0).2 =
      .ok { server := "time.google.com", offset := 45, correctedOffset := 45,
            gradualCorrection := false, coherenceVariance := 8960,
            warning := some ⟨8960, [⟨"pool.ntp.org", 40⟩, ⟨"time.google.com", 45⟩,
                                    ⟨"time.cloudflare.com", 9000⟩]⟩ } := by
  refine ⟨selectResult_median, selectResult_lowVariance, ?_⟩
  simp [sync, collectResults, serversToTest, defaultConfig, selectResult,
    syncCorrectionUpdate, applyGradualCorrection, initState, adaptiveInterval,
    varianceOf, medianOffset, offsetsOf, mathMax, mathMin, coherenceQuery,
    List.insertionSort, List.orderedInsert, List.find?,
    List.filterMap, abs_eq_max_neg, max_def, min_def, Option.getD]
  norm_num

/-- Witness for C2 at a concrete input: two samples with offsets 0 and 200
(variance 200) select the median and warn. -/
theorem coherence_median_selection_witness :
    ∃ sel, selectResult [⟨"a", (0 : ℚ)⟩, ⟨"b", 200⟩] =
        some (sel, some ⟨varianceOf [⟨"a", 0⟩, ⟨"b", 200⟩],
                         [⟨"a", 0⟩, ⟨"b", 200⟩]⟩) ∧
      sel.offset = medianOffset [⟨"a", 0⟩, ⟨"b", 200⟩] :=
  coherence_median_selection.1 ⟨"a", 0⟩ [⟨"b", 200⟩] (by simp)
    (by norm_num [varianceOf, offsetsOf, mathMax, mathMin])

/-- The variance of two samples is the absolute difference of their offsets. -/
theorem varianceOf_pair (sa sb : String) (a b : ℚ) :
    varianceOf [⟨sa, a⟩, ⟨sb, b⟩] = |a - b| := by
  simp [varianceOf, offsetsOf, mathMax, mathMin, max_sub_min_eq_abs,
    abs_sub_comm]

/-- The sorted-median of two samples is the larger of the two offsets. -/
theorem medianOffset_pair (sa sb : String) (a b : ℚ) :
    medianOffset [⟨sa, a⟩, ⟨sb, b⟩] = max a b := by
  by_cases hab : a ≤ b
  · simp [medianOffset, offsetsOf, List.insertionSort, List.orderedInsert, hab,
      max_eq_right hab]
  · have hba : b ≤ a := le_of_not_le hab
    simp [medianOffset, offsetsOf, List.insertionSort, List.orderedInsert, hab,
      max_eq_left hba]

/-- C10: even-count median edge case.  When the coherence path selects by
median over an even number of samples (variance above 100), the selected
offset is the element at index `n/2` of the offsets sorted ascending — the
upper of the two middle values, not their average; for exactly two
disagreeing samples it is the larger of the two offsets regardless of
source-priority order.  The concrete four-sample instance (offsets 300, 0,
200, 10, sorted [0, 10, 200, 300]) selects 200, the upper middle. -/
theorem even_median_upper_middle :
    (∀ (rs : List ServerResult) (sel : ServerResult) (w : Option CoherenceWarning),
       2 ≤ rs.length → rs.length % 2 = 0 → 100 < varianceOf rs →
       selectResult rs = some (sel, w) →
       sel.offset =
         (List.insertionSort (· ≤ ·) (offsetsOf rs)).getD (rs.length / 2) 0) ∧
    (∀ (sa sb : String) (a b : ℚ) (sel : ServerResult) (w : Option CoherenceWarning),
       100 < |a - b| →
       selectResult [⟨sa, a⟩, ⟨sb, b⟩] = some (sel, w) →
       sel.offset = max a b) ∧
    (selectResult [⟨"a", 300⟩, ⟨"b", 0⟩, ⟨"c", 200⟩, ⟨"d", 10⟩] =
      some (⟨"c", 200⟩,
            some ⟨300, [⟨"a", 300⟩, ⟨"b", 0⟩, ⟨"c", 200⟩, ⟨"d", 10⟩]⟩)) := by
  have hmain : ∀ (rs : List ServerResult) (sel : ServerResult)
      (w : Option CoherenceWarning), 2 ≤ rs.length → 100 < varianceOf rs →
      selectResult rs = some (sel, w) →
      sel.offset =
        (List.insertionSort (· ≤ ·) (offsetsOf rs)).getD (rs.length / 2) 0 := by
    rintro rs sel w hlen hv hsel
    cases rs with
    | nil => simp at hlen
    | cons r0 rest =>
      have hne : rest ≠ [] := by
        intro h
        subst h
        simp at hlen
      obtain ⟨sel', hsel', hoff⟩ := selectResult_median r0 rest hne hv
      rw [hsel'] at hsel
      simp only [Option.some.injEq, Prod.mk.injEq] at hsel
      obtain ⟨h1, -⟩ := hsel
      subst h1
      rw [hoff]
      simp [medianOffset, offsetsOf]
  refine ⟨fun rs sel w hlen _ hv hsel => hmain rs sel w hlen hv hsel, ?_, ?_⟩
  · rintro sa sb a b sel w hab hsel
    have hv : 100 < varianceOf [⟨sa, a⟩, ⟨sb, b⟩] := by
      rw [varianceOf_pair]
      exact hab
    have := hmain [⟨sa, a⟩, ⟨sb, b⟩] sel w (by simp) hv hsel
    rw [this]
    have hm := medianOffset_pair sa sb a b
    simp only [medianOffset, offsetsOf] at hm
    simpa using hm
  · simp [selectResult, varianceOf, medianOffset, offsetsOf, mathMax, mathMin,
      List.insertionSort, List.orderedInsert, List.find?]
    norm_num

/-- Witness for C10 at a concrete input: two disagreeing samples with
offsets 0 (first in priority order) and 200 select 200, the larger. -/
theorem even_median_upper_middle_witness :
    (⟨"b", 200⟩ : ServerResult).offset = max (0 : ℚ) 200 :=
  even_median_upper_middle.2.1 "a" "b" 0 200 ⟨"b", 200⟩
    (some ⟨200, [⟨"a", 0⟩, ⟨"b", 200⟩]⟩)
    (by norm_num)
    (by simp [selectResult, varianceOf, medianOffset, offsetsOf, mathMax, mathMin,
          List.insertionSort, List.orderedInsert, List.find?]
        norm_num)

/-- Gradual-correction ticks never change the synchronized flag. -/
theorem applyGradualCorrection_isSync (st : TimeSyncState) (rate t : ℚ) :
    (applyGradualCorrection st rate t).1.isSync = st.isSync := by
  simp only [applyGradualCorrection]
  split
  · rfl
  · split
    · rfl
    · split <;> rfl

/-- `forceCorrection` never changes the synchronized flag. -/
theorem forceCorrection_isSync (st : TimeSyncState) :
    (forceCorrection st).1.isSync = st.isSync := by
  unfold forceCorrection
  split <;> rfl

/-- A `sync` call that returns a result leaves the state synchronized. -/
theorem sync_ok_isSync (st : TimeSyncState) (cfg : SyncConfig)
    (query : String → Option ℚ) (tPerf tWall : ℚ) (ev : SyncEvent)
    (h : (sync st cfg query tPerf tWall).2 = .ok ev) :
    (sync st cfg query tPerf tWall).1.isSync = true := by
  rcases hsel : selectResult (collectResults (serversToTest cfg) query) with _ | ⟨sel, warn⟩
  · rw [sync] at h
    simp [hsel] at h
  · simp [sync, hsel]

/-- No operation of the class ever clears the synchronized flag. -/
theorem step_isSync {st st' : TimeSyncState} (h : Step st st')
    (hs : st.isSync = true) : st'.isSync = true := by
  cases h with
  | syncStep cfg query tPerf tWall =>
    rcases hsel : selectResult (collectResults (serversToTest cfg) query) with _ | ⟨sel, warn⟩ <;>
      simp [sync, hsel, hs]
  | tickStep rate t =>
    rw [applyGradualCorrection_isSync]
    exact hs
  | forceStep =>
    rw [forceCorrection_isSync]
    exact hs

/-- C4: NotSynchronized precondition.  Before any successful sync (the
constructor state) `now` and `timestamp` raise the not-synchronized error;
every successful `sync` call leaves the state synchronized; no operation of
the class ever clears the synchronized flag; and on a synchronized state
`now` and `timestamp` always return a value, never that error. -/
theorem notSynchronized_precondition :
    (∀ t, now initState t = .error .notSynchronized) ∧
    (∀ t, timestamp initState t = .error .notSynchronized) ∧
    (∀ (st : TimeSyncState) (cfg : SyncConfig) (query : String → Option ℚ)
       (tPerf tWall : ℚ) (ev : SyncEvent),
       (sync st cfg query tPerf tWall).2 = .ok ev →
       (sync st cfg query tPerf tWall).1.isSync = true) ∧
    (∀ st st' : TimeSyncState, Step st st' → st.isSync = true → st'.isSync = true) ∧
    (∀ (st : TimeSyncState) (t : ℚ), st.isSync = true →
       (∃ r, now st t = .ok r) ∧ ∃ s, timestamp st t = .ok s) := by
  refine ⟨fun t => rfl, fun t => rfl, sync_ok_isSync,
    fun st st' h hs => step_isSync h hs, ?_⟩
  intro st t hs
  have hcond : ¬ st.isSync = false := by simp [hs]
  constructor
  · exact ⟨_, by rw [now, if_neg hcond]⟩
  · exact ⟨_, by rw [timestamp, now, if_neg hcond]; rfl⟩

/-- Witness for C4 at a concrete input: the constructor state raises, a
concrete synchronized state never does. -/
theorem notSynchronized_precondition_witness :
    now initState 0 = .error .notSynchronized ∧
    ∃ r, now (settledState 5) 3 = .ok r :=
  ⟨notSynchronized_precondition.1 0,
   (notSynchronized_precondition.2.2.2.2 (settledState 5) 3 rfl).1⟩

/-- One gradual-correction tick preserves "no correction in progress implies
applied equals target". -/
theorem applyGradualCorrection_settled (st : TimeSyncState) (rate t : ℚ)
    (h : st.correctionInProgress = false → st.currentOffset = st.targetOffset) :
    (applyGradualCorrection st rate t).1.correctionInProgress = false →
    (applyGradualCorrection st rate t).1.currentOffset =
      (applyGradualCorrection st rate t).1.targetOffset := by
  simp only [applyGradualCorrection]
  split
  next hc => exact h
  next hc =>
    split
    · intro _
      rfl
    · split
      · intro _
        rfl
      · intro hfalse
        exact absurd hfalse hc

/-- The correction decision of `sync` establishes "no correction in progress
implies applied equals target". -/
theorem syncCorrectionUpdate_settled (st : TimeSyncState) (cfg : SyncConfig)
    (o : ℚ) :
    (syncCorrectionUpdate st cfg o).correctionInProgress = false →
    (syncCorrectionUpdate st cfg o).currentOffset =
      (syncCorrectionUpdate st cfg o).targetOffset := by
  simp only [syncCorrectionUpdate]
  split
  · intro _
    rfl
  · intro hfalse
    cases hfalse

/-- A full `sync` call preserves "no correction in progress implies applied
equals target". -/
theorem sync_settled (st : TimeSyncState) (cfg : SyncConfig)
    (query : String → Option ℚ) (tPerf tWall : ℚ)
    (h : st.correctionInProgress = false → st.currentOffset = st.targetOffset) :
    (sync st cfg query tPerf tWall).1.correctionInProgress = false →
    (sync st cfg query tPerf tWall).1.currentOffset =
      (sync st cfg query tPerf tWall).1.targetOffset := by
  rcases hsel : selectResult (collectResults (serversToTest cfg) query) with _ | ⟨sel, warn⟩
  · simpa [sync, hsel] using h
  · by_cases hp : (syncCorrectionUpdate st cfg sel.offset).correctionInProgress = true
    · have h2 := applyGradualCorrection_settled (syncCorrectionUpdate st cfg sel.offset)
        cfg.correctionRate tPerf (syncCorrectionUpdate_settled st cfg sel.offset)
      simpa [sync, hsel, hp] using h2
    · simpa [sync, hsel, hp] using syncCorrectionUpdate_settled st cfg sel.offset

/-- `forceCorrection` preserves "no correction in progress implies applied
equals target". -/
theorem forceCorrection_settled (st : TimeSyncState)
    (h : st.correctionInProgress = false → st.currentOffset = st.targetOffset) :
    (forceCorrection st).1.correctionInProgress = false →
    (forceCorrection st).1.currentOffset = (forceCorrection st).1.targetOffset := by
  simp only [forceCorrection]
  split
  · intro _
    rfl
  · exact h

/-- In every reachable state, no correction in progress implies the applied
offset equals the target offset. -/
theorem reachable_settled {st : TimeSyncState} (h : Reachable st) :
    st.correctionInProgress = false → st.currentOffset = st.targetOffset := by
  induction h with
  | init =>
    intro _
    rfl
  | step hr hstep ih =>
    cases hstep with
    | syncStep cfg query tPerf tWall => exact sync_settled _ cfg query tPerf tWall ih
    | tickStep rate t => exact applyGradualCorrection_settled _ rate t ih
    | forceStep => exact forceCorrection_settled _ ih

/-- C7: correction-state invariant and tick monotonicity.  In every reachable
state, no correction in progress implies applied offset equals target offset;
for every tick taken while a correction is in progress with rate in (0, 1],
the distance from applied to target does not increase; and each such tick
either converges (distance below 0.5, snap to target), times out (elapsed
above 30000, snap to target), or steps the applied offset by `diff * rate`. -/
theorem correction_state_invariant :
    (∀ st : TimeSyncState, Reachable st → st.correctionInProgress = false →
       st.currentOffset = st.targetOffset) ∧
    (∀ (st : TimeSyncState) (rate t : ℚ), 0 < rate → rate ≤ 1 →
       st.correctionInProgress = true →
       |(applyGradualCorrection st rate t).1.targetOffset -
          (applyGradualCorrection st rate t).1.currentOffset| ≤
        |st.targetOffset - st.currentOffset|) ∧
    (∀ (st : TimeSyncState) (rate t : ℚ), st.correctionInProgress = true →
       (|st.targetOffset - st.currentOffset| < 1/2 →
         (applyGradualCorrection st rate t).2 = .converged ∧
         (applyGradualCorrection st rate t).1.currentOffset = st.targetOffset) ∧
       (¬ |st.targetOffset - st.currentOffset| < 1/2 →
         (30000 < t - st.correctionStartTime.getD t →
           (applyGradualCorrection st rate t).2 = .timedOut ∧
           (applyGradualCorrection st rate t).1.currentOffset = st.targetOffset) ∧
         (¬ 30000 < t - st.correctionStartTime.getD t →
           (applyGradualCorrection st rate t).2 =
             .stepped (adaptiveInterval (st.targetOffset - st.currentOffset)) ∧
           (applyGradualCorrection st rate t).1.currentOffset =
             st.currentOffset + (st.targetOffset - st.currentOffset) * rate))) := by
  refine ⟨fun st hr => reachable_settled hr, ?_, ?_⟩
  · intro st rate t hrate0 hrate1 hp
    have hp' : ¬ st.correctionInProgress = false := by simp [hp]
    by_cases h1 : |st.targetOffset - st.currentOffset| < 1/2
    · simp only [applyGradualCorrection, if_neg hp', if_pos h1]
      simp
    · by_cases h2 : t - st.correctionStartTime.getD t > 30000
      · simp only [applyGradualCorrection, if_neg hp', if_neg h1, if_pos h2]
        simp
      · simp only [applyGradualCorrection, if_neg hp', if_neg h1, if_neg h2]
        have heq : st.targetOffset -
            (st.currentOffset + (st.targetOffset - st.currentOffset) * rate) =
            (st.targetOffset - st.currentOffset) * (1 - rate) := by ring
        simp only [heq, abs_mul]
        have h1r : |1 - rate| = 1 - rate := abs_of_nonneg (by linarith)
        rw [h1r]
        exact mul_le_of_le_one_right (abs_nonneg _) (by linarith)
  · intro st rate t hp
    have hp' : ¬ st.correctionInProgress = false := by simp [hp]
    refine ⟨?_, ?_⟩
    · intro h1
      simp only [applyGradualCorrection, if_neg hp', if_pos h1]
      refine ⟨?_, ?_⟩ <;> trivial
    · intro h1
      refine ⟨?_, ?_⟩
      · intro h2
        simp only [applyGradualCorrection, if_neg hp', if_neg h1, if_pos h2]
        refine ⟨?_, ?_⟩ <;> trivial
      · intro h2
        simp only [applyGradualCorrection, if_neg hp', if_neg h1, if_neg h2]
        refine ⟨?_, ?_⟩ <;> trivial

/-- Witness for C7 at concrete inputs: the constructor state is settled, and
a concrete mid-correction tick (applied 0, target 2000, rate 1/10) does not
increase the distance to the target. -/
theorem correction_state_invariant_witness :
    initState.currentOffset = initState.targetOffset ∧
    |(applyGradualCorrection (convergingState 0 2000 (some 0)) (1/10) 5).1.targetOffset -
       (applyGradualCorrection (convergingState 0 2000 (some 0)) (1/10) 5).1.currentOffset| ≤
      |(convergingState 0 2000 (some 0)).targetOffset -
         (convergingState 0 2000 (some 0)).currentOffset| :=
  ⟨correction_state_invariant.1 initState Reachable.init rfl,
   correction_state_invariant.2.1 (convergingState 0 2000 (some 0)) (1/10) 5
     (by norm_num) (by norm_num) rfl⟩

/-- A tick that steps leaves the correction clock at its previous start, or
starts it at the tick's own time if it was not yet running. -/
theorem applyGradualCorrection_stepped_startTime (st : TimeSyncState)
    (rate t i : ℚ) (h : (applyGradualCorrection st rate t).2 = .stepped i) :
    (applyGradualCorrection st rate t).1.correctionStartTime =
      some (st.correctionStartTime.getD t) := by
  by_cases h0 : st.correctionInProgress = false
  · simp [applyGradualCorrection, h0] at h
  · by_cases h1 : |st.targetOffset - st.currentOffset| < 1/2
    · rw [applyGradualCorrection, if_neg h0] at h
      simp only [if_pos h1] at h
      cases h
    · by_cases h2 : t - st.correctionStartTime.getD t > 30000
      · rw [applyGradualCorrection, if_neg h0] at h
        simp only [if_neg h1, if_pos h2] at h
        cases h
      · rw [applyGradualCorrection, if_neg h0]
        simp only [if_neg h1, if_neg h2]

/-- A tick that steps schedules the next tick at the adaptive interval
computed from the remaining difference. -/
theorem applyGradualCorrection_stepped_interval (st : TimeSyncState)
    (rate t i : ℚ) (h : (applyGradualCorrection st rate t).2 = .stepped i) :
    i = adaptiveInterval (st.targetOffset - st.currentOffset) := by
  by_cases h0 : st.correctionInProgress = false
  · simp [applyGradualCorrection, h0] at h
  · by_cases h1 : |st.targetOffset - st.currentOffset| < 1/2
    · rw [applyGradualCorrection, if_neg h0] at h
      simp only [if_pos h1] at h
      cases h
    · by_cases h2 : t - st.correctionStartTime.getD t > 30000
      · rw [applyGradualCorrection, if_neg h0] at h
        simp only [if_neg h1, if_pos h2] at h
        cases h
      · rw [applyGradualCorrection, if_neg h0] at h
        simp only [if_neg h1, if_neg h2] at h
        cases h
        rfl

/-- C6 counterexample: a sync completing while a correction is already in
progress (timeout clock started at 100) takes the smooth branch and restarts
the elapsed-time tracking — afterwards the correction clock reads the new
sync's time 9000, not the original 100, even though the transition was not a
fresh one from Settled. -/
theorem correction_timeout_reset_counterexample :
    (convergingState 500 2000 (some 100)).correctionInProgress = true ∧
    (sync (convergingState 500 2000 (some 100)) oneServerConfig
        (fun _ => some 2500) 9000 9000).2.isOk = true ∧
    (sync (convergingState 500 2000 (some 100)) oneServerConfig
        (fun _ => some 2500) 9000 9000).1.correctionInProgress = true ∧
    (sync (convergingState 500 2000 (some 100)) oneServerConfig
        (fun _ => some 2500) 9000 9000).1.correctionStartTime = some 9000 ∧
    ¬ (sync (convergingState 500 2000 (some 100)) oneServerConfig
        (fun _ => some 2500) 9000 9000).1.correctionStartTime = some 100 := by
  refine ⟨rfl, ?_, ?_, ?_, ?_⟩ <;>
    simp [sync, collectResults, serversToTest, oneServerConfig, defaultConfig,
      selectResult, syncCorrectionUpdate, applyGradualCorrection, convergingState,
      adaptiveInterval, abs_eq_max_neg, max_def, min_def, Except.isOk, Except.toBool] <;>
    norm_num

/-- C6 amended: every sync that takes the smooth branch clears
`correctionStartTime` — whether or not a correction is already in progress —
and the next correction tick (including the one run synchronously inside
`sync`) restarts the elapsed-time tracking at that tick's own time.  The
30-second timeout clock is therefore restarted on every smooth-branch sync,
not only on fresh Settled-to-Converging transitions. -/
theorem correction_timeout_clock_restart (st : TimeSyncState) (cfg : SyncConfig)
    (o : ℚ) (hs : st.isSync = true) (hsm : cfg.smoothCorrection = true)
    (h1 : cfg.maxCorrectionJump < |o - st.currentOffset|)
    (h2 : |o - st.currentOffset| < cfg.maxOffsetThreshold) :
    (syncCorrectionUpdate st cfg o).correctionStartTime = none ∧
    (syncCorrectionUpdate st cfg o).correctionInProgress = true ∧
    ∀ rate t i,
      (applyGradualCorrection (syncCorrectionUpdate st cfg o) rate t).2 =
        .stepped i →
      (applyGradualCorrection (syncCorrectionUpdate st cfg o) rate
          t).1.correctionStartTime = some t := by
  have hcond : ¬ (st.isSync = false ∨ cfg.smoothCorrection = false ∨
      |o - st.currentOffset| ≤ cfg.maxCorrectionJump ∨
      |o - st.currentOffset| ≥ cfg.maxOffsetThreshold) := by
    push_neg
    exact ⟨by simp [hs], by simp [hsm], h1, h2⟩
  have hupd : syncCorrectionUpdate st cfg o =
      { st with targetOffset := o, systemOffset := o,
                correctionInProgress := true, correctionStartTime := none } := by
    simp only [syncCorrectionUpdate]
    rw [if_neg hcond]
  refine ⟨by rw [hupd], by rw [hupd], ?_⟩
  intro rate t i hstep
  rw [applyGradualCorrection_stepped_startTime _ rate t i hstep, hupd]
  simp

/-- Witness for C6 (amended) at a concrete input: a settled state at applied
offset 0 receiving measured offset 2500 under the default thresholds. -/
theorem correction_timeout_clock_restart_witness :
    (syncCorrectionUpdate (settledState 0) defaultConfig 2500).correctionStartTime =
        none ∧
      (syncCorrectionUpdate (settledState 0) defaultConfig
          2500).correctionInProgress = true ∧
      ∀ rate t i,
        (applyGradualCorrection (syncCorrectionUpdate (settledState 0)
            defaultConfig 2500) rate t).2 = .stepped i →
        (applyGradualCorrection (syncCorrectionUpdate (settledState 0)
            defaultConfig 2500) rate t).1.correctionStartTime = some t :=
  correction_timeout_clock_restart (settledState 0) defaultConfig 2500 rfl rfl
    (by norm_num [settledState, defaultConfig])
    (by norm_num [settledState, defaultConfig])

/-- C8: round-trip of the applied offset with smooth correction disabled.
Every successful sync made with `smoothCorrection = false` instantly sets the
applied, target and real offsets to the newly selected offset, leaves no
correction in progress, and the result reports no gradual correction — the
Converging state is never observed. -/
theorem smooth_disabled_round_trip (st : TimeSyncState) (cfg : SyncConfig)
    (query : String → Option ℚ) (tPerf tWall : ℚ)
    (sel : ServerResult) (warn : Option CoherenceWarning)
    (hs : cfg.smoothCorrection = false)
    (h : selectResult (collectResults (serversToTest cfg) query) =
      some (sel, warn)) :
    (sync st cfg query tPerf tWall).1.currentOffset = sel.offset ∧
    (sync st cfg query tPerf tWall).1.targetOffset = sel.offset ∧
    (sync st cfg query tPerf tWall).1.systemOffset = sel.offset ∧
    (sync st cfg query tPerf tWall).1.correctionInProgress = false ∧
    ∃ ev, (sync st cfg query tPerf tWall).2 = .ok ev ∧
      ev.gradualCorrection = false ∧ ev.offset = sel.offset := by
  have hdec : syncCorrectionUpdate st cfg sel.offset =
      { st with systemOffset := sel.offset, currentOffset := sel.offset,
                targetOffset := sel.offset, correctionInProgress := false,
                correctionStartTime := none } := by
    simp only [syncCorrectionUpdate]
    rw [if_pos (Or.inr (Or.inl hs))]
  simp [sync, h, hdec]

/-- Witness for C8 at a concrete input: one server measuring offset 2500,
smooth correction disabled, called on a settled synchronized state. -/
theorem smooth_disabled_round_trip_witness :
    (sync (settledState 0) { oneServerConfig with smoothCorrection := false }
        (fun _ => some 2500) 1 1).1.currentOffset = (2500 : ℚ) ∧
    (sync (settledState 0) { oneServerConfig with smoothCorrection := false }
        (fun _ => some 2500) 1 1).1.targetOffset = (2500 : ℚ) ∧
    (sync (settledState 0) { oneServerConfig with smoothCorrection := false }
        (fun _ => some 2500) 1 1).1.systemOffset = (2500 : ℚ) ∧
    (sync (settledState 0) { oneServerConfig with smoothCorrection := false }
        (fun _ => some 2500) 1 1).1.correctionInProgress = false ∧
    ∃ ev, (sync (settledState 0)
        { oneServerConfig with smoothCorrection := false }
        (fun _ => some 2500) 1 1).2 = .ok ev ∧
      ev.gradualCorrection = false ∧ ev.offset = (2500 : ℚ) := by
  have h := smooth_disabled_round_trip (settledState 0)
    { oneServerConfig with smoothCorrection := false }
    (fun _ => some 2500) 1 1 ⟨"a", 2500⟩ none rfl
    (by simp [collectResults, serversToTest, oneServerConfig, defaultConfig,
          selectResult])
  exact h

/-- C9 counterexample: adaptive tick spacing goes the other way.  With
remaining errors 600 and 1500 (neither converging nor timing out), the
scheduled delays are 60ms and 150ms: the larger remaining error produces a
strictly longer delay (less frequent checks), not a shorter one. -/
theorem adaptive_tick_spacing_counterexample :
    (applyGradualCorrection (convergingState 0 600 (some 0)) (1/10) 0).2 =
      .stepped 60 ∧
    (applyGradualCorrection (convergingState 0 1500 (some 0)) (1/10) 0).2 =
      .stepped 150 ∧
    (600 : ℚ) < 1500 ∧ (60 : ℚ) < 150 := by
  refine ⟨?_, ?_, by norm_num, by norm_num⟩ <;>
    simp [applyGradualCorrection, convergingState, adaptiveInterval,
      abs_eq_max_neg, max_def, min_def] <;>
    norm_num

/-- C9 amended: for every correction tick that neither converges nor times
out, the delay before the next scheduled tick equals
`max 50 (min 200 (|target − applied| * 0.1))` — clamped to [50ms, 200ms] and
proportional to the remaining error within those bounds, with a larger
remaining error producing a longer delay (less frequent checks), up to the
200ms cap. -/
theorem adaptive_tick_spacing :
    (∀ (st : TimeSyncState) (rate t i : ℚ),
       (applyGradualCorrection st rate t).2 = .stepped i →
       i = adaptiveInterval (st.targetOffset - st.currentOffset) ∧
       50 ≤ i ∧ i ≤ 200) ∧
    (∀ d1 d2 : ℚ, |d1| ≤ |d2| → adaptiveInterval d1 ≤ adaptiveInterval d2) := by
  constructor
  · intro st rate t i h
    have hi := applyGradualCorrection_stepped_interval st rate t i h
    subst hi
    refine ⟨rfl, le_max_left _ _, ?_⟩
    exact max_le (by norm_num) (min_le_left _ _)
  · intro d1 d2 h
    exact max_le_max le_rfl
      (min_le_min le_rfl (mul_le_mul_of_nonneg_right h (by norm_num)))

/-- Witness for C9 (amended) at a concrete input: the tick with remaining
error 600 schedules the next tick after 60ms, within [50, 200]. -/
theorem adaptive_tick_spacing_witness :
    (60 : ℚ) = adaptiveInterval
        ((convergingState 0 600 (some 0)).targetOffset -
          (convergingState 0 600 (some 0)).currentOffset) ∧
      (50 : ℚ) ≤ 60 ∧ (60 : ℚ) ≤ 200 :=
  adaptive_tick_spacing.1 (convergingState 0 600 (some 0)) (1/10) 0 60
    (by simp [applyGradualCorrection, convergingState, adaptiveInterval,
          abs_eq_max_neg, max_def, min_def]
        norm_num)

/-- C5 counterexample: there is no configuration validation.  Constructing
and syncing with the contradictory configuration (force-instant threshold 500
not above the max instant jump 1000, correction rate −1) raises nothing —
`sync` completes successfully — and with an empty source list `sync` rejects
with the same all-sources-unreachable error used for total network failure,
not a configuration error (the code's error taxonomy has no configuration
error at all). -/
theorem configuration_validation_counterexample :
    (∃ ev, (sync (settledState 0) contradictoryConfig
        (fun _ => some 2500) 0 0).2 = .ok ev) ∧
    sync (settledState 0) { defaultConfig with servers := [] }
        (fun _ => some 2500) 0 0 =
      (settledState 0, .error .allSourcesUnreachable) := by
  constructor
  · refine ⟨{ server := "a", offset := 2500, correctedOffset := 2500,
              gradualCorrection := false, coherenceVariance := 0,
              warning := none }, ?_⟩
    simp [sync, collectResults, serversToTest, contradictoryConfig,
      defaultConfig, selectResult, syncCorrectionUpdate, applyGradualCorrection,
      settledState, adaptiveInterval, abs_eq_max_neg, max_def, min_def]
    norm_num
  · simp [sync, collectResults, serversToTest, defaultConfig, selectResult]

/-- C5 amended: neither construction nor `sync` validates the configuration.
With an empty source list, `sync` rejects before any query with the
all-sources-unreachable error — the only error `sync` can raise — and with
contradictory correction thresholds and a non-positive rate a sync whose
source responds completes successfully. -/
theorem configuration_not_validated :
    (∀ (st : TimeSyncState) (cfg : SyncConfig) (query : String → Option ℚ)
       (tPerf tWall : ℚ), cfg.servers = [] →
       sync st cfg query tPerf tWall = (st, .error .allSourcesUnreachable)) ∧
    (∀ (st : TimeSyncState) (cfg : SyncConfig) (query : String → Option ℚ)
       (tPerf tWall : ℚ) (e : SyncError),
       (sync st cfg query tPerf tWall).2 = .error e →
       e = .allSourcesUnreachable) ∧
    (∃ ev, (sync (settledState 100) contradictoryConfig
        (fun _ => some 700) 0 0).2 = .ok ev ∧ ev.offset = 700) := by
  refine ⟨?_, ?_, ?_⟩
  · intro st cfg query tPerf tWall h
    have hnil : collectResults (serversToTest cfg) query = [] := by
      apply collectResults_eq_nil
      intro s hs
      simp [serversToTest, h] at hs
    simp [sync, hnil, selectResult]
  · intro st cfg query tPerf tWall e _
    cases e
    rfl
  · refine ⟨{ server := "a", offset := 700, correctedOffset := 700,
              gradualCorrection := false, coherenceVariance := 0,
              warning := none }, ?_, rfl⟩
    simp [sync, collectResults, serversToTest, contradictoryConfig,
      defaultConfig, selectResult, syncCorrectionUpdate,
      applyGradualCorrection, settledState, adaptiveInterval,
      abs_eq_max_neg, max_def, min_def]
    norm_num

/-- Witness for C5 (amended) at a concrete input: syncing with an empty
server list from a settled state. -/
theorem configuration_not_validated_witness :
    sync (settledState 7) { defaultConfig with servers := [] }
        (fun _ => some 1) 2 3 =
      (settledState 7, .error .allSourcesUnreachable) :=
  configuration_not_validated.1 (settledState 7)
    { defaultConfig with servers := [] } (fun _ => some 1) 2 3 rfl

end PreciseTimeNtp
